import Mathlib

/-
  Verification development for the chat/plugin orchestration core of
  msdevhub/chatgpt_plugins (src/app/chat/chat.py and
  src/app/chat/plugins/callapi.py).

  Shallow embedding conventions:
  - Python dicts used as chat messages become the `Message` structure.
  - The OpenAI completion service is an external collaborator; it is modelled
    as an oracle `Gateway : Nat -> ChatReply` giving the reply to the n-th
    completion request of a run.  `_chat_completion_request` itself catches
    every exception and returns the exception object, which is modelled by
    the `ChatReply.raised` constructor; calling `.get` on that object raises
    AttributeError, which `ChatReply.getFunctionCall` reproduces.
  - Python exceptions travel in `Except PyError`.  The interpreter recursion
    limit that eventually stops the unbounded recursion of `_execute_plugin`
    is modelled by a fuel parameter whose exhaustion raises
    `PyError.recursionError` (a RecursionError is an Exception and is caught
    by the blanket handler of `get_chatgpt_response`).
  - The raw JSON `arguments` string of a function_call is modelled by
    `ArgSrc`: a raw text either parses to a string-valued object
    (`ArgSrc.valid`) or fails to parse (`ArgSrc.invalid`); `jsonLoads`
    models `json.loads` on it.  JSON serialization (`json.dumps`) is
    modelled by a simple executable printer.
  - HTTP traffic of CallAPIPlugin is an oracle `Http`; a response carries a
    status code and the JSON dump of its parsed body.
  - Each run of the loop is instrumented with a trace of the completion
    requests it issues (the message list sent, paired with the reply), so
    that properties about what is sent to the gateway are statable.
-/

set_option linter.unusedVariables false

namespace ChatApp

/-- Roles a chat message can carry (the "role" field of the message dicts
built in app/chat/chat.py). -/
inductive Role
  | system
  | user
  | assistant
  | function
  deriving DecidableEq

/-- A chat message: one entry of Conversation.conversation_history or of the
working copy built inside ChatSession._execute_plugin.  `content` is optional
because provider replies may carry a None content; `name` is the tool name
attached to role=function messages. -/
structure Message where
  role : Role
  content : Option String
  name : Option String
  deriving DecidableEq

/-- Python exception values that can cross the modelled flows. -/
inductive PyError
  | jsonDecodeError
  | attributeError
  | keyError (key : String)
  | valueError (args : List (String × String))
  | recursionError
  | other (msg : String)
  deriving DecidableEq

def errorKey : String := "error"
def contentKey : String := "content"
def methodKey : String := "method"
def urlKey : String := "url"
def bodyKey : String := "body"
def descriptionKey : String := "description"
def somethingWentWrong : String := "something went wrong"
def noPluginFoundPrefix : String := "No plugin found with name "
def baseEndpoint : String := "http://127.0.0.1:8000"
def statusCodePrefix : String := "Status code: "
def callRestApiName : String := "call_rest_api"

def joinComma : List String → String
  | [] => ""
  | [s] => s
  | s :: rest => s ++ ", " ++ joinComma rest

/-- Model of json.dumps for one string-valued field of a JSON object. -/
def dumpsPair (p : String × String) : String :=
  "\"" ++ p.1 ++ "\": \"" ++ p.2 ++ "\""

/-- Model of json.dumps for a string-valued JSON object. -/
def dumpsDict (d : List (String × String)) : String :=
  "\x7b" ++ joinComma (d.map dumpsPair) ++ "\x7d"

/-- Model of json.dumps for a list of string-valued JSON objects. -/
def dumpsDictList (l : List (List (String × String))) : String :=
  "[" ++ joinComma (l.map dumpsDict) ++ "]"

/-- The raw `arguments` text carried by a function_call reply: either a text
that json.loads parses into a (string-valued) object, or a text on which
json.loads raises. -/
inductive ArgSrc
  | valid (args : List (String × String))
  | invalid (raw : String)
  deriving DecidableEq

/-- Model of json.loads applied to the raw arguments text. -/
def jsonLoads : ArgSrc → Except PyError (List (String × String))
  | ArgSrc.valid args => Except.ok args
  | ArgSrc.invalid _ => Except.error PyError.jsonDecodeError

/-- The raw text itself (used when the whole function_call object is
interpolated into an f-string). -/
def ArgSrc.raw : ArgSrc → String
  | ArgSrc.valid args => dumpsDict args
  | ArgSrc.invalid s => s

/-- The function_call object of a completion reply: `.get("name")` and
`.get("arguments")` on it yield the two fields. -/
structure FunctionCall where
  name : Option String
  arguments : ArgSrc
  deriving DecidableEq

/-- Model of the textual interpolation f-string of the whole function_call
object (the OpenAI object prints as JSON). -/
def FunctionCall.pyRepr (fc : FunctionCall) : String :=
  "\x7b\"name\": "
    ++ (match fc.name with
        | some n => "\"" ++ n ++ "\""
        | none => "None")
    ++ ", \"arguments\": \"" ++ fc.arguments.raw ++ "\"\x7d"

/-- What ChatSession._chat_completion_request hands back: either the provider
message (with optional function_call and optional content), or - because that
method catches every exception and `return e` - the exception object itself. -/
inductive ChatReply
  | message (functionCall : Option FunctionCall) (content : Option String)
  | raised (e : PyError)
  deriving DecidableEq

/-- Model of `reply.get("function_call")`: on an exception object the
attribute access raises AttributeError. -/
def ChatReply.getFunctionCall : ChatReply → Except PyError (Option FunctionCall)
  | ChatReply.message fc _ => Except.ok fc
  | ChatReply.raised _ => Except.error PyError.attributeError

/-- Model of `reply.get("content")` (only reached after getFunctionCall
succeeded, hence only on the message constructor). -/
def ChatReply.getContent : ChatReply → Option String
  | ChatReply.message _ c => c
  | ChatReply.raised _ => none

/-- A plugin return value: CallAPIPlugin returns either a dict or a plain
string; the loop json.dumps-es it into the function message content. -/
inductive PluginResponse
  | dict (entries : List (String × String))
  | str (s : String)
  deriving DecidableEq

/-- Model of json.dumps applied to a plugin response. -/
def PluginResponse.dumps : PluginResponse → String
  | PluginResponse.dict entries => dumpsDict entries
  | PluginResponse.str s => "\"" ++ s ++ "\""

/-- A registered plugin: its tool name (get_name) and its execute operation,
which receives the parsed keyword arguments and may raise. -/
structure PluginInterface where
  getName : String
  execute : List (String × String) → Except PyError PluginResponse

/-- The session plugin registry self.plugins, a name-keyed dict. -/
abbrev Registry := List (String × PluginInterface)

/-- Membership test and lookup corresponding to
`if func_name in self.plugins` / `self.plugins[func_name]`; a None name is
never a dict key. -/
def lookupPlugin (plugins : Registry) : Option String → Option PluginInterface
  | some n => List.lookup n plugins
  | none => none

/-- The error-dict message built in the unknown-plugin branch of
_execute_plugin.  Note that the source interpolates the whole `func_call`
object, not the extracted `func_name`. -/
def noPluginMsg (fc : FunctionCall) : String :=
  noPluginFoundPrefix ++ fc.pyRepr

/-- Lines 177-185 of chat.py: resolve the requested name against the
registry; on a hit, json.loads the raw arguments (raising on malformed text)
and run the plugin (whose exceptions propagate - there is no try/except
here); on a miss, substitute the error dict. -/
def pluginResponseOf (plugins : Registry) (fc : FunctionCall) :
    Except PyError PluginResponse :=
  match lookupPlugin plugins fc.name with
  | some plugin =>
    match jsonLoads fc.arguments with
    | Except.ok args => plugin.execute args
    | Except.error e => Except.error e
  | none => Except.ok (PluginResponse.dict [(errorKey, noPluginMsg fc)])

/-- The completion-service oracle: the reply to the n-th completion request
issued during a run. -/
abbrev Gateway := Nat → ChatReply

/-- The tool-resolution step of _execute_plugin runs without raising on this
function call (known name with parseable arguments and non-raising execute,
or unknown name). -/
def resolvesOk (plugins : Registry) (fc : FunctionCall) : Prop :=
  ∃ pr, pluginResponseOf plugins fc = Except.ok pr

/-- Outcome of one (possibly chained) _execute_plugin invocation: the value
returned or the exception raised, the next request index, and the trace of
completion requests issued (messages sent, reply received). -/
structure ExecResult where
  result : Except PyError (Option String)
  nextIdx : Nat
  trace : List (List Message × ChatReply)

/-- ChatSession._execute_plugin (chat.py lines 173-211).  `conv` is the
durable log self.conversation.conversation_history, read-only here: the
function message is appended to a fresh copy `messages` at every level.  The
fuel models the interpreter recursion limit; the source has no cut-off of
its own (its comment only remarks that one might be a good idea). -/
def executePlugin (g : Gateway) (plugins : Registry) (conv : List Message) :
    Nat → Nat → FunctionCall → ExecResult
  | 0, k, _ => ⟨Except.error PyError.recursionError, k, []⟩
  | fuel + 1, k, fc =>
    match pluginResponseOf plugins fc with
    | Except.error e => ⟨Except.error e, k, []⟩
    | Except.ok pr =>
      let messages := conv ++ [⟨Role.function, some pr.dumps, fc.name⟩]
      let reply := g k
      match reply.getFunctionCall with
      | Except.error e => ⟨Except.error e, k + 1, [(messages, reply)]⟩
      | Except.ok (some fc2) =>
        let r := executePlugin g plugins conv fuel (k + 1) fc2
        ⟨r.result, r.nextIdx, (messages, reply) :: r.trace⟩
      | Except.ok none => ⟨Except.ok reply.getContent, k + 1, [(messages, reply)]⟩

/-- The body of the try-block of get_chatgpt_response after the user message
was appended: issue a completion request on the durable log and either take
the content or enter the plugin loop.  The trace field holds only the
requests issued by the plugin loop; the initial request is added by
getChatgptResponse. -/
def innerFlow (g : Gateway) (plugins : Registry) (conv1 : List Message)
    (fuel k : Nat) : ExecResult :=
  let reply := g k
  match reply.getFunctionCall with
  | Except.error e => ⟨Except.error e, k + 1, []⟩
  | Except.ok (some fc) => executePlugin g plugins conv1 fuel (k + 1) fc
  | Except.ok none => ⟨Except.ok reply.getContent, k + 1, []⟩

/-- Result of one submit: the string (or None) handed to the caller, the
durable log afterwards, whether the try-block succeeded, the next request
index, and the full request trace. -/
structure SubmitResult where
  result : Option String
  conversation : List Message
  succeeded : Bool
  nextIdx : Nat
  trace : List (List Message × ChatReply)

def userMsg (s : String) : Message := ⟨Role.user, some s, none⟩

def assistantMsg (c : Option String) : Message := ⟨Role.assistant, c, none⟩

/-- ChatSession.get_chatgpt_response (chat.py lines 213-235): append the user
message to the durable log, run the try-block, and either append the
assistant message and return it, or catch any exception and return the fixed
degraded-service string (durable log keeps only the user message then). -/
def getChatgptResponse (g : Gateway) (plugins : Registry) (conv0 : List Message)
    (fuel k : Nat) (userMessage : String) : SubmitResult :=
  let conv1 := conv0 ++ [userMsg userMessage]
  let inner := innerFlow g plugins conv1 fuel k
  match inner.result with
  | Except.ok m =>
    ⟨m, conv1 ++ [assistantMsg m], true, inner.nextIdx, (conv1, g k) :: inner.trace⟩
  | Except.error _ =>
    ⟨some somethingWentWrong, conv1, false, inner.nextIdx, (conv1, g k) :: inner.trace⟩

/-- An HTTP response as CallAPIPlugin sees it: the status code and the JSON
dump of the parsed body (json.dumps(response.json())). -/
structure HttpResponse where
  statusCode : Nat
  jsonBody : String
  deriving DecidableEq

/-- The HTTP transport oracle behind the requests library.  The Python
default body is the empty dict; an absent "body" argument is passed along as
none. -/
structure Http where
  get : String → HttpResponse
  post : String → Option String → HttpResponse
  put : String → Option String → HttpResponse
  delete : String → HttpResponse

/-- Lines 66-69 of callapi.py: 200 yields the dict with the JSON-encoded
body under "content"; any other status yields the status-code string. -/
def statusOutcome (resp : HttpResponse) : PluginResponse :=
  if resp.statusCode = 200 then PluginResponse.dict [(contentKey, resp.jsonBody)]
  else PluginResponse.str (statusCodePrefix ++ toString resp.statusCode)

/-- CallAPIPlugin.execute (callapi.py lines 45-69): resolve the url against
the base endpoint, dispatch on the method (an unsupported method raises
ValueError(arguments)), then apply the status check.  A missing "url" or
"method" key raises KeyError; "body" falls back to a default. -/
def CallAPIPlugin.execute (http : Http) (arguments : List (String × String)) :
    Except PyError PluginResponse :=
  match List.lookup urlKey arguments with
  | none => Except.error (PyError.keyError urlKey)
  | some u =>
    let url := baseEndpoint ++ u
    let body := List.lookup bodyKey arguments
    match List.lookup methodKey arguments with
    | none => Except.error (PyError.keyError methodKey)
    | some m =>
      let response : Except PyError HttpResponse :=
        if m = "GET" then Except.ok (http.get url)
        else if m = "POST" then Except.ok (http.post url body)
        else if m = "PUT" then Except.ok (http.put url body)
        else if m = "DELETE" then Except.ok (http.delete url)
        else Except.error (PyError.valueError arguments)
      match response with
      | Except.error e => Except.error e
      | Except.ok resp => Except.ok (statusOutcome resp)

/-- The CallAPIPlugin instance, parameterized by the HTTP oracle. -/
def CallAPIPlugin (http : Http) : PluginInterface :=
  ⟨callRestApiName, CallAPIPlugin.execute http⟩

def SYSTEM_PROMPT : String :=
  "\n    You are a helpful AI assistant name is GPT BOY. You answer the user\x27s queries.\n    When you are not sure of an answer, you take the help of\n    functions provided to you.\n    NEVER make up an answer if you don\x27t know, just respond\n    with \"I don\x27t know\" when you don\x27t know.\n"

/-- Conversation.available_apis (the five active industry entries). -/
def availableApis : List (List (String × String)) :=
  [[(methodKey, "GET"), (urlKey, "/industry?page=[page_id]"),
    (descriptionKey, "Lists industries. The response is paginated. You may need to request more than one to get them all. For example,/industry?page=2.")],
   [(methodKey, "GET"), (urlKey, "/industry/[industry_id]"),
    (descriptionKey, "Returns information about the industry identified by the given id. For example,/industry/2")],
   [(methodKey, "POST"), (urlKey, "/industry"),
    (descriptionKey, "Creates a new industry. This function accepts JSON body containing four fields: id,name,created,modified")],
   [(methodKey, "PUT"), (urlKey, "/industry/[industry_id]"),
    (descriptionKey, "Updates industry information. This function accepts JSON body containing one fields: name. The industry_id in the URL must be a valid identifier of an existing industry.")],
   [(methodKey, "DELETE"), (urlKey, "/industry/[industry_id]"),
    (descriptionKey, "Removes the industry identified by the given id. Before you call this function, find the industry information and make sure the id is correct. Do NOT call this function if you didn\x27t retrieve user info. Iterate over all pages until you find it or make sure it doesn\x27t exist")]]

/-- Conversation.__init__ (chat.py lines 99-115): the four fixed seed
messages, one system directive and three user hints. -/
def seedMessages : List Message :=
  [⟨Role.system, some SYSTEM_PROMPT, none⟩,
   ⟨Role.user, some ("You have access to the following APIs: " ++ dumpsDictList availableApis), none⟩,
   ⟨Role.user, some "If a function requires an identifier, list all first to find the proper value. You may need to list more than one page", none⟩,
   ⟨Role.user, some "If you were asked to create, update, or delete a user, perform the action and reply with a confirmation telling what you have done.", none⟩]

/-- A chat session: its durable conversation log and plugin registry (the
uuid does not influence any modelled behaviour). -/
structure ChatSession where
  conversation : List Message
  plugins : Registry

/-- Python dict assignment self.plugins[name] = plugin on the assoc-list
model: overwrite an existing key, otherwise append. -/
def dictInsert (d : Registry) (key : String) (v : PluginInterface) : Registry :=
  if (List.lookup key d).isSome then
    d.map (fun e => if e.1 = key then (key, v) else e)
  else d ++ [(key, v)]

/-- ChatSession.register_plugin. -/
def registerPlugin (sess : ChatSession) (p : PluginInterface) : ChatSession :=
  ⟨sess.conversation, dictInsert sess.plugins p.getName p⟩

/-- ChatSession.__init__ (chat.py lines 130-138): fresh Conversation and a
registry holding only CallAPIPlugin (the other registrations are commented
out in the source). -/
def ChatSession.init (http : Http) : ChatSession :=
  registerPlugin ⟨seedMessages, []⟩ (CallAPIPlugin http)

/-- ChatSession.get_messages (chat.py lines 146-152). -/
def getMessages (conversationHistory : List Message) : List Message :=
  if conversationHistory.length = 1 then []
  else conversationHistory.drop 4

/-- Statistics of a run of several submissions against one session. -/
structure RunStats where
  sess : ChatSession
  idx : Nat
  okCount : Nat
  errCount : Nat

/-- Run a list of user submissions sequentially through one session,
counting the submissions whose try-block succeeded and those recovered by
the top-level handler. -/
def submitAll (g : Gateway) (fuel : Nat) : ChatSession → Nat → List String → RunStats
  | sess, k, [] => ⟨sess, k, 0, 0⟩
  | sess, k, m :: rest =>
    let r := getChatgptResponse g sess.plugins sess.conversation fuel k m
    let s := submitAll g fuel ⟨r.conversation, sess.plugins⟩ r.nextIdx rest
    ⟨s.sess, s.idx,
      if r.succeeded then s.okCount + 1 else s.okCount,
      if r.succeeded then s.errCount else s.errCount + 1⟩

/-- Number of role=function messages in a log. -/
def countFunctionMessages (conv : List Message) : Nat :=
  conv.countP (fun msg => decide (msg.role = Role.function))

def resultOk : Except PyError (Option String) → Bool
  | Except.ok _ => true
  | Except.error _ => false

/- Concrete scenario data used to evaluate the embedding on closed inputs. -/

def demoInput : String := "List all industries"
def doneText : String := "Here are the industries"
def toolOne : String := "tool_one"
def toolTwo : String := "tool_two"
def fcA : FunctionCall := ⟨some toolOne, ArgSrc.valid []⟩
def fcB : FunctionCall := ⟨some toolTwo, ArgSrc.valid []⟩

/-- A gateway that chains two tool calls, then answers with content. -/
def gChain : Gateway := fun k =>
  if k = 0 then ChatReply.message (some fcA) none
  else if k = 1 then ChatReply.message (some fcB) none
  else ChatReply.message none (some doneText)

def boomText : String := "gateway unreachable"

/-- A gateway whose transport always fails: _chat_completion_request catches
the exception and returns the exception object. -/
def gRaise : Gateway := fun _ => ChatReply.raised (PyError.other boomText)

/-- A gateway that always answers with plain content. -/
def gContentOnly : Gateway := fun _ => ChatReply.message none (some doneText)

def conv1Demo : List Message := seedMessages ++ [userMsg demoInput]
def fmABody : String :=
  PluginResponse.dumps (PluginResponse.dict [(errorKey, noPluginMsg fcA)])
def req2Demo : List Message :=
  conv1Demo ++ [⟨Role.function, some fmABody, fcA.name⟩]

def loopTool : String := "loop_tool"
def fcLoop : FunctionCall := ⟨some loopTool, ArgSrc.valid []⟩

/-- A gateway that requests a tool call on every completion request. -/
def gLoop : Gateway := fun _ => ChatReply.message (some fcLoop) none

/-- The chain started by gLoop halts with a value for some recursion budget.
This is what claim C2 asserts for every gateway; gLoop refutes it. -/
def c2ChainHalts : Prop :=
  ∃ fuel, resultOk (executePlugin gLoop [] seedMessages fuel 0 fcLoop).result = true

def unknownToolName : String := "delete_industry"
def fcUnknown : FunctionCall := ⟨some unknownToolName, ArgSrc.valid []⟩

def demoPluginName : String := "demo_tool"
def echoText : String := "ok"
def pEcho : PluginInterface :=
  ⟨demoPluginName, fun _ => Except.ok (PluginResponse.str echoText)⟩
def regEcho : Registry := [(demoPluginName, pEcho)]
def badRaw : String := "not json"
def fcBadArgs : FunctionCall := ⟨some demoPluginName, ArgSrc.invalid badRaw⟩

/-- A gateway whose first reply requests demo_tool with malformed arguments
and that would answer with content afterwards. -/
def gBadArgs : Gateway := fun k =>
  if k = 0 then ChatReply.message (some fcBadArgs) none
  else ChatReply.message none (some doneText)

def boomPluginName : String := "boom_tool"
def boomMsg : String := "plugin blew up"
def pBoom : PluginInterface :=
  ⟨boomPluginName, fun _ => Except.error (PyError.other boomMsg)⟩
def regBoom : Registry := [(boomPluginName, pBoom)]
def fcBoom : FunctionCall := ⟨some boomPluginName, ArgSrc.valid []⟩

/-- A gateway whose first reply requests boom_tool (whose execute raises) and
that would answer with content afterwards. -/
def gBoom : Gateway := fun k =>
  if k = 0 then ChatReply.message (some fcBoom) none
  else ChatReply.message none (some doneText)

def emptyJson : String := "[]"

/-- An HTTP oracle that always answers 200 with an empty JSON body. -/
def httpZero : Http :=
  ⟨fun _ => ⟨200, emptyJson⟩, fun _ _ => ⟨200, emptyJson⟩,
   fun _ _ => ⟨200, emptyJson⟩, fun _ => ⟨200, emptyJson⟩⟩

def industriesJson : String := "[1, 2, 3]"
def demoUrl : String := "/industry?page=1"
def demoArgs : List (String × String) := [(methodKey, "GET"), (urlKey, demoUrl)]

/- Helper lemmas about one submit. -/

theorem getChatgptResponse_ok (g : Gateway) (plugins : Registry)
    (conv0 : List Message) (fuel k : Nat) (m : String) (a : Option String)
    (h : (innerFlow g plugins (conv0 ++ [userMsg m]) fuel k).result = Except.ok a) :
    getChatgptResponse g plugins conv0 fuel k m =
      ⟨a, (conv0 ++ [userMsg m]) ++ [assistantMsg a], true,
        (innerFlow g plugins (conv0 ++ [userMsg m]) fuel k).nextIdx,
        (conv0 ++ [userMsg m], g k) ::
          (innerFlow g plugins (conv0 ++ [userMsg m]) fuel k).trace⟩ := by
  simp only [getChatgptResponse]
  rw [h]

theorem getChatgptResponse_err (g : Gateway) (plugins : Registry)
    (conv0 : List Message) (fuel k : Nat) (m : String) (e : PyError)
    (h : (innerFlow g plugins (conv0 ++ [userMsg m]) fuel k).result = Except.error e) :
    getChatgptResponse g plugins conv0 fuel k m =
      ⟨some somethingWentWrong, conv0 ++ [userMsg m], false,
        (innerFlow g plugins (conv0 ++ [userMsg m]) fuel k).nextIdx,
        (conv0 ++ [userMsg m], g k) ::
          (innerFlow g plugins (conv0 ++ [userMsg m]) fuel k).trace⟩ := by
  simp only [getChatgptResponse]
  rw [h]

/-- C10: a fresh session has exactly the four seed messages (system then
three user messages) as its durable log, a registry holding only the
call_rest_api plugin, and an empty visible history. -/
theorem c10_fresh_session (http : Http) :
    (ChatSession.init http).conversation = seedMessages
    ∧ (ChatSession.init http).conversation.map Message.role
        = [Role.system, Role.user, Role.user, Role.user]
    ∧ (ChatSession.init http).plugins.map Prod.fst = [callRestApiName]
    ∧ getMessages (ChatSession.init http).conversation = [] :=
  ⟨rfl, rfl, rfl, rfl⟩

/-- C3: whatever exception escapes the inner submit flow (gateway failure,
tool-argument parse failure, plugin failure, recursion-limit exhaustion),
get_chatgpt_response never propagates it: the caller receives the fixed
degraded-service string, and only the user message was persisted. -/
theorem c3_submit_never_raises (g : Gateway) (plugins : Registry)
    (conv0 : List Message) (fuel k : Nat) (m : String) (e : PyError)
    (h : (innerFlow g plugins (conv0 ++ [userMsg m]) fuel k).result = Except.error e) :
    (getChatgptResponse g plugins conv0 fuel k m).result = some somethingWentWrong
    ∧ (getChatgptResponse g plugins conv0 fuel k m).conversation
        = conv0 ++ [userMsg m] := by
  rw [getChatgptResponse_err g plugins conv0 fuel k m e h]
  exact ⟨rfl, rfl⟩

/-- C3 witness: with a gateway whose transport always fails, a concrete
submit returns the degraded-service string. -/
theorem c3_witness :
    (getChatgptResponse gRaise [] seedMessages 5 0 demoInput).result
        = some somethingWentWrong
    ∧ (getChatgptResponse gRaise [] seedMessages 5 0 demoInput).conversation
        = seedMessages ++ [userMsg demoInput] :=
  c3_submit_never_raises gRaise [] seedMessages 5 0 demoInput
    PyError.attributeError rfl

/-- C9: CallAPIPlugin.execute resolves the url against the configured base
endpoint; for each supported method it returns the content dict on HTTP 200
and the status-code string otherwise (statusOutcome), and for a method
outside GET/POST/PUT/DELETE it raises ValueError. -/
theorem c9_callapi_execute (http : Http) (arguments : List (String × String))
    (u m : String)
    (hu : List.lookup urlKey arguments = some u)
    (hm : List.lookup methodKey arguments = some m) :
    (m = "GET" →
      CallAPIPlugin.execute http arguments =
        Except.ok (statusOutcome (http.get (baseEndpoint ++ u))))
    ∧ (m = "POST" →
      CallAPIPlugin.execute http arguments =
        Except.ok (statusOutcome
          (http.post (baseEndpoint ++ u) (List.lookup bodyKey arguments))))
    ∧ (m = "PUT" →
      CallAPIPlugin.execute http arguments =
        Except.ok (statusOutcome
          (http.put (baseEndpoint ++ u) (List.lookup bodyKey arguments))))
    ∧ (m = "DELETE" →
      CallAPIPlugin.execute http arguments =
        Except.ok (statusOutcome (http.delete (baseEndpoint ++ u))))
    ∧ (m ∉ (["GET", "POST", "PUT", "DELETE"] : List String) →
      CallAPIPlugin.execute http arguments =
        Except.error (PyError.valueError arguments)) := by
  refine ⟨?_, ?_, ?_, ?_, ?_⟩ <;> intro h
  · subst h; simp [CallAPIPlugin.execute, hu, hm]
  · subst h; simp [CallAPIPlugin.execute, hu, hm]
  · subst h; simp [CallAPIPlugin.execute, hu, hm]
  · subst h; simp [CallAPIPlugin.execute, hu, hm]
  · simp only [List.mem_cons, List.not_mem_nil, or_false] at h
    push_neg at h
    obtain ⟨h1, h2, h3, h4⟩ := h
    simp [CallAPIPlugin.execute, hu, hm, h1, h2, h3, h4]

/-- C9 witness: a concrete GET call through an HTTP oracle answering 200
returns the content dict. -/
theorem c9_callapi_execute_witness :
    CallAPIPlugin.execute httpZero demoArgs =
      Except.ok (PluginResponse.dict [(contentKey, emptyJson)]) :=
  (c9_callapi_execute httpZero demoArgs demoUrl ("GET") rfl rfl).1 rfl

/- Trace-shape lemmas for the plugin loop. -/

theorem executePlugin_trace_head (g : Gateway) (plugins : Registry)
    (conv : List Message) (fuel k : Nat) (fc : FunctionCall)
    (req : List Message) (reply : ChatReply)
    (h : (executePlugin g plugins conv fuel k fc).trace.get? 0 = some (req, reply)) :
    ∃ body, req = conv ++ [⟨Role.function, some body, fc.name⟩] := by
  cases fuel with
  | zero => simp [executePlugin] at h
  | succ fuel =>
    cases hpr : pluginResponseOf plugins fc with
    | error e => simp [executePlugin, hpr] at h
    | ok pr =>
      cases hfc : (g k).getFunctionCall with
      | error e =>
        refine ⟨pr.dumps, ?_⟩
        simp [executePlugin, hpr, hfc] at h
        exact h.1.symm
      | ok ofc =>
        cases ofc with
        | some fc2 =>
          refine ⟨pr.dumps, ?_⟩
          simp [executePlugin, hpr, hfc] at h
          exact h.1.symm
        | none =>
          refine ⟨pr.dumps, ?_⟩
          simp [executePlugin, hpr, hfc] at h
          exact h.1.symm

theorem executePlugin_trace_chain (g : Gateway) (plugins : Registry)
    (conv : List Message) :
    ∀ (fuel k : Nat) (fc : FunctionCall) (i : Nat) (req req2 : List Message)
      (reply reply2 : ChatReply) (fc2 : FunctionCall),
      (executePlugin g plugins conv fuel k fc).trace.get? i = some (req, reply) →
      reply.getFunctionCall = Except.ok (some fc2) →
      (executePlugin g plugins conv fuel k fc).trace.get? (i + 1) = some (req2, reply2) →
      ∃ body, req2 = conv ++ [⟨Role.function, some body, fc2.name⟩] := by
  intro fuel
  induction fuel with
  | zero =>
    intro k fc i req req2 reply reply2 fc2 h1 hreq h2
    simp [executePlugin] at h1
  | succ fuel ih =>
    intro k fc i req req2 reply reply2 fc2 h1 hreq h2
    cases hpr : pluginResponseOf plugins fc with
    | error e => simp [executePlugin, hpr] at h1
    | ok pr =>
      cases hfc : (g k).getFunctionCall with
      | error e => simp [executePlugin, hpr, hfc] at h2
      | ok ofc =>
        cases ofc with
        | none => simp [executePlugin, hpr, hfc] at h2
        | some fcN =>
          simp only [executePlugin, hpr, hfc] at h1 h2
          cases i with
          | zero =>
            simp only [List.get?_cons_zero, Option.some.injEq, Prod.mk.injEq] at h1
            obtain ⟨hreq1, hrep1⟩ := h1
            rw [← hrep1, hfc] at hreq
            have hfc2 : fcN = fc2 := by
              injection hreq with hreq
              injection hreq
            subst hfc2
            rw [List.get?_cons_succ] at h2
            exact executePlugin_trace_head g plugins conv fuel (k + 1) fcN
              req2 reply2 h2
          | succ i =>
            rw [List.get?_cons_succ] at h1 h2
            exact ih (k + 1) fcN i req req2 reply reply2 fc2 h1 hreq h2

theorem getChatgptResponse_trace (g : Gateway) (plugins : Registry)
    (conv0 : List Message) (fuel k : Nat) (m : String) :
    (getChatgptResponse g plugins conv0 fuel k m).trace
      = (conv0 ++ [userMsg m], g k)
          :: (innerFlow g plugins (conv0 ++ [userMsg m]) fuel k).trace := by
  cases h : (innerFlow g plugins (conv0 ++ [userMsg m]) fuel k).result with
  | ok a => rw [getChatgptResponse_ok g plugins conv0 fuel k m a h]
  | error e => rw [getChatgptResponse_err g plugins conv0 fuel k m e h]

/-- C1: in a submit flow, whenever a gateway reply requests a tool invocation
and a next completion request is issued, the message sequence of that next
request is the durable log of the submit extended by exactly one
role=function message whose name field is the requested tool name - for
known and unknown names alike. -/
theorem c1_one_function_message (g : Gateway) (plugins : Registry)
    (conv0 : List Message) (fuel k : Nat) (m : String) (i : Nat)
    (req req2 : List Message) (reply reply2 : ChatReply) (fc : FunctionCall)
    (h1 : (getChatgptResponse g plugins conv0 fuel k m).trace.get? i
        = some (req, reply))
    (h2 : reply.getFunctionCall = Except.ok (some fc))
    (h3 : (getChatgptResponse g plugins conv0 fuel k m).trace.get? (i + 1)
        = some (req2, reply2)) :
    ∃ body, req2 = (conv0 ++ [userMsg m]) ++ [⟨Role.function, some body, fc.name⟩] := by
  rw [getChatgptResponse_trace g plugins conv0 fuel k m] at h1 h3
  cases hg : (g k).getFunctionCall with
  | error e => simp only [innerFlow, hg] at h1 h3; simp at h3
  | ok ofc =>
    cases ofc with
    | none => simp only [innerFlow, hg] at h1 h3; simp at h3
    | some fc0 =>
      simp only [innerFlow, hg] at h1 h3
      cases i with
      | zero =>
        simp only [List.get?_cons_zero, Option.some.injEq, Prod.mk.injEq] at h1
        obtain ⟨hreq1, hrep1⟩ := h1
        rw [← hrep1, hg] at h2
        have hfc0 : fc0 = fc := by
          injection h2 with h2
          injection h2
        subst hfc0
        rw [List.get?_cons_succ] at h3
        exact executePlugin_trace_head g plugins (conv0 ++ [userMsg m]) fuel
          (k + 1) fc0 req2 reply2 h3
      | succ i =>
        rw [List.get?_cons_succ] at h1 h3
        exact executePlugin_trace_chain g plugins (conv0 ++ [userMsg m]) fuel
          (k + 1) fc0 i req req2 reply reply2 fc h1 h2 h3

/-- C1 witness: in the concrete two-tool chain, the request after the first
tool-invocation reply extends the durable log by precisely the function
message of the requested tool. -/
theorem c1_witness :
    ∃ body, req2Demo
      = (seedMessages ++ [userMsg demoInput])
          ++ [⟨Role.function, some body, fcA.name⟩] :=
  c1_one_function_message gChain [] seedMessages 9 0 demoInput 0
    conv1Demo req2Demo (ChatReply.message (some fcA) none)
    (ChatReply.message (some fcB) none) fcA rfl rfl rfl

/- C2: the recursion of _execute_plugin has no cut-off of its own. -/

theorem gLoop_result (fuel : Nat) : ∀ k,
    (executePlugin gLoop [] seedMessages fuel k fcLoop).result
      = Except.error PyError.recursionError := by
  induction fuel with
  | zero => intro k; rfl
  | succ fuel ih =>
    intro k
    have hpr : pluginResponseOf [] fcLoop
        = Except.ok (PluginResponse.dict [(errorKey, noPluginMsg fcLoop)]) := rfl
    have hfc : (gLoop k).getFunctionCall = Except.ok (some fcLoop) := rfl
    simp only [executePlugin, hpr, hfc]
    exact ih (k + 1)

/-- C2 counterexample: against a gateway that requests a tool invocation on
every completion request, the plugin loop never yields a value for any
recursion budget - there is no configured maximum number of chained tool
calls after which a fallback message would be returned; the run only ends in
the modelled RecursionError of the interpreter. -/
theorem c2_counterexample : ¬ c2ChainHalts := by
  rintro ⟨fuel, hfuel⟩
  rw [gLoop_result fuel 0] at hfuel
  simp [resultOk] at hfuel

/-- C2 amended: a chain of consecutive tool-call replies terminates exactly
through a content reply: if the gateway requests resolvable tool calls for n
further steps and then answers with content, the loop returns that content
(given a recursion budget above n).  Combined with the counterexample: no
content reply, no termination. -/
theorem c2_chain_terminates_on_content (g : Gateway) (plugins : Registry)
    (conv : List Message) :
    ∀ (n fuel k : Nat) (fc : FunctionCall),
      resolvesOk plugins fc →
      (∀ j, j < n → ∃ fcj, (g (k + j)).getFunctionCall = Except.ok (some fcj)
          ∧ resolvesOk plugins fcj) →
      (g (k + n)).getFunctionCall = Except.ok none →
      n < fuel →
      (executePlugin g plugins conv fuel k fc).result
        = Except.ok ((g (k + n)).getContent) := by
  intro n
  induction n with
  | zero =>
    intro fuel k fc hfc hchain hstop hlt
    cases fuel with
    | zero => omega
    | succ fuel =>
      obtain ⟨pr, hpr⟩ := hfc
      rw [Nat.add_zero] at hstop
      simp [executePlugin, hpr, hstop]
  | succ n ih =>
    intro fuel k fc hfc hchain hstop hlt
    cases fuel with
    | zero => omega
    | succ fuel =>
      obtain ⟨pr, hpr⟩ := hfc
      obtain ⟨fc1, hfc1, hres1⟩ := hchain 0 (Nat.succ_pos n)
      rw [Nat.add_zero] at hfc1
      have hchain2 : ∀ j, j < n →
          ∃ fcj, (g (k + 1 + j)).getFunctionCall = Except.ok (some fcj)
            ∧ resolvesOk plugins fcj := by
        intro j hj
        have hh := hchain (j + 1) (by omega)
        rwa [show k + (j + 1) = k + 1 + j by omega] at hh
      have hstop2 : (g (k + 1 + n)).getFunctionCall = Except.ok none := by
        rwa [show k + (n + 1) = k + 1 + n by omega] at hstop
      have hrec := ih fuel (k + 1) fc1 hres1 hchain2 hstop2 (by omega)
      rw [show k + 1 + n = k + (n + 1) by omega] at hrec
      simp only [executePlugin, hpr, hfc1]
      exact hrec

/-- C2 witness: the concrete two-tool chain ends in the content reply of the
third completion request. -/
theorem c2_chain_terminates_witness :
    (executePlugin gChain [] seedMessages 5 0 fcA).result
      = Except.ok (some doneText) := by
  have h := c2_chain_terminates_on_content gChain [] seedMessages 2 5 0 fcA
    ⟨PluginResponse.dict [(errorKey, noPluginMsg fcA)], rfl⟩
    (by
      intro j hj
      interval_cases j
      · exact ⟨fcA, rfl,
          ⟨PluginResponse.dict [(errorKey, noPluginMsg fcA)], rfl⟩⟩
      · exact ⟨fcB, rfl,
          ⟨PluginResponse.dict [(errorKey, noPluginMsg fcB)], rfl⟩⟩)
    rfl (by omega)
  exact h

/-- C4: evaluating the unknown-plugin branch at the requested name
delete_industry (absent from a fresh session's registry).  The substituted
ToolResult is error-shaped and the loop continues with one further
completion request, but the error text interpolates the printed whole
function_call object - it is not the claimed literal
"No plugin found with name delete_industry". -/
theorem c4_unknown_plugin_message :
    pluginResponseOf (ChatSession.init httpZero).plugins fcUnknown
        = Except.ok (PluginResponse.dict
            [(errorKey, noPluginFoundPrefix ++ fcUnknown.pyRepr)])
    ∧ noPluginFoundPrefix ++ fcUnknown.pyRepr
        ≠ noPluginFoundPrefix ++ unknownToolName
    ∧ (executePlugin gContentOnly (ChatSession.init httpZero).plugins
        seedMessages 3 0 fcUnknown).result = Except.ok (some doneText)
    ∧ (executePlugin gContentOnly (ChatSession.init httpZero).plugins
        seedMessages 3 0 fcUnknown).trace.length = 1 := by
  refine ⟨rfl, ?_, rfl, rfl⟩
  decide

/-- C5 counterexample: a known plugin requested with unparseable arguments
does not get a synthetic error ToolResult - json.loads raises, the loop
appends nothing and issues no further completion request, and the submit
flow aborts into the degraded-service string (only the initial request was
ever sent). -/
theorem c5_counterexample :
    (executePlugin gContentOnly regEcho seedMessages 5 0 fcBadArgs).result
        = Except.error PyError.jsonDecodeError
    ∧ (executePlugin gContentOnly regEcho seedMessages 5 0 fcBadArgs).trace = []
    ∧ (getChatgptResponse gBadArgs regEcho seedMessages 5 0 demoInput).result
        = some somethingWentWrong
    ∧ (getChatgptResponse gBadArgs regEcho seedMessages 5 0 demoInput).trace.length
        = 1 :=
  ⟨rfl, rfl, rfl, rfl⟩

/-- C5 amended: when the gateway requests a registered plugin with raw
arguments that do not parse, the JSONDecodeError propagates out of the tool
loop to the top-level handler: the submit returns the degraded-service
string, the durable log keeps only the user message, and no further
completion request is issued (so no synthetic error ToolResult is
substituted and the chain is abandoned, though the process does not
crash). -/
theorem c5_malformed_args_abort (g : Gateway) (plugins : Registry)
    (conv0 : List Message) (fuel k : Nat) (m : String) (fc : FunctionCall)
    (n raw : String) (p : PluginInterface)
    (hn : fc.name = some n) (hp : List.lookup n plugins = some p)
    (hraw : fc.arguments = ArgSrc.invalid raw)
    (hg : (g k).getFunctionCall = Except.ok (some fc))
    (hfuel : 0 < fuel) :
    (getChatgptResponse g plugins conv0 fuel k m).result = some somethingWentWrong
    ∧ (getChatgptResponse g plugins conv0 fuel k m).conversation
        = conv0 ++ [userMsg m]
    ∧ (getChatgptResponse g plugins conv0 fuel k m).trace
        = [(conv0 ++ [userMsg m], g k)] := by
  obtain ⟨fuel, rfl⟩ : ∃ f, fuel = f + 1 := ⟨fuel - 1, by omega⟩
  have hpr : pluginResponseOf plugins fc = Except.error PyError.jsonDecodeError := by
    simp [pluginResponseOf, lookupPlugin, hn, hp, hraw, jsonLoads]
  have hinner : innerFlow g plugins (conv0 ++ [userMsg m]) (fuel + 1) k
      = ⟨Except.error PyError.jsonDecodeError, k + 1, []⟩ := by
    simp [innerFlow, hg, executePlugin, hpr]
  rw [getChatgptResponse_err g plugins conv0 (fuel + 1) k m
    PyError.jsonDecodeError (by rw [hinner])]
  rw [hinner]
  exact ⟨rfl, rfl, rfl⟩

/-- C5 witness for the amended statement, at the concrete malformed-argument
scenario. -/
theorem c5_witness :
    (getChatgptResponse gBadArgs regEcho seedMessages 5 0 demoInput).result
        = some somethingWentWrong
    ∧ (getChatgptResponse gBadArgs regEcho seedMessages 5 0 demoInput).conversation
        = seedMessages ++ [userMsg demoInput]
    ∧ (getChatgptResponse gBadArgs regEcho seedMessages 5 0 demoInput).trace
        = [(seedMessages ++ [userMsg demoInput], gBadArgs 0)] :=
  c5_malformed_args_abort gBadArgs regEcho seedMessages 5 0 demoInput fcBadArgs
    demoPluginName badRaw pEcho rfl rfl rfl rfl (by omega)

/-- C6 counterexample: an exception raised inside a registered plugin's
execute is not converted into an error-shaped ToolResult - no role=function
message is built, no further completion request is issued, and the submit
flow aborts into the degraded-service string. -/
theorem c6_counterexample :
    (executePlugin gContentOnly regBoom seedMessages 5 0 fcBoom).result
        = Except.error (PyError.other boomMsg)
    ∧ (executePlugin gContentOnly regBoom seedMessages 5 0 fcBoom).trace = []
    ∧ (getChatgptResponse gBoom regBoom seedMessages 5 0 demoInput).result
        = some somethingWentWrong
    ∧ (getChatgptResponse gBoom regBoom seedMessages 5 0 demoInput).trace.length
        = 1 :=
  ⟨rfl, rfl, rfl, rfl⟩

/-- C6 amended: when a registered plugin's execute raises on the parsed
arguments, the exception propagates out of the tool loop to the top-level
handler: the submit returns the degraded-service string, the durable log
keeps only the user message, and no role=function message or further
completion request is produced (the session itself survives). -/
theorem c6_plugin_exception_abort (g : Gateway) (plugins : Registry)
    (conv0 : List Message) (fuel k : Nat) (m : String) (fc : FunctionCall)
    (n : String) (p : PluginInterface) (args : List (String × String))
    (e : PyError)
    (hn : fc.name = some n) (hp : List.lookup n plugins = some p)
    (hargs : jsonLoads fc.arguments = Except.ok args)
    (hexec : p.execute args = Except.error e)
    (hg : (g k).getFunctionCall = Except.ok (some fc))
    (hfuel : 0 < fuel) :
    (getChatgptResponse g plugins conv0 fuel k m).result = some somethingWentWrong
    ∧ (getChatgptResponse g plugins conv0 fuel k m).conversation
        = conv0 ++ [userMsg m]
    ∧ (getChatgptResponse g plugins conv0 fuel k m).trace
        = [(conv0 ++ [userMsg m], g k)] := by
  obtain ⟨fuel, rfl⟩ : ∃ f, fuel = f + 1 := ⟨fuel - 1, by omega⟩
  have hpr : pluginResponseOf plugins fc = Except.error e := by
    simp [pluginResponseOf, lookupPlugin, hn, hp, hargs, hexec]
  have hinner : innerFlow g plugins (conv0 ++ [userMsg m]) (fuel + 1) k
      = ⟨Except.error e, k + 1, []⟩ := by
    simp [innerFlow, hg, executePlugin, hpr]
  rw [getChatgptResponse_err g plugins conv0 (fuel + 1) k m e (by rw [hinner])]
  rw [hinner]
  exact ⟨rfl, rfl, rfl⟩

/-- C6 witness for the amended statement, at the concrete raising plugin. -/
theorem c6_witness :
    (getChatgptResponse gBoom regBoom seedMessages 5 0 demoInput).result
        = some somethingWentWrong
    ∧ (getChatgptResponse gBoom regBoom seedMessages 5 0 demoInput).conversation
        = seedMessages ++ [userMsg demoInput]
    ∧ (getChatgptResponse gBoom regBoom seedMessages 5 0 demoInput).trace
        = [(seedMessages ++ [userMsg demoInput], gBoom 0)] :=
  c6_plugin_exception_abort gBoom regBoom seedMessages 5 0 demoInput fcBoom
    boomPluginName pBoom [] (PyError.other boomMsg) rfl rfl rfl rfl rfl (by omega)

/-- C8: tool-result messages live only in the working copies sent to the
gateway; across one successful submit the durable log grows by exactly the
user message and the final assistant message, and its count of role=function
messages is unchanged. -/
theorem c8_durable_log_frame (g : Gateway) (plugins : Registry)
    (conv0 : List Message) (fuel k : Nat) (m : String)
    (h : (getChatgptResponse g plugins conv0 fuel k m).succeeded = true) :
    ∃ a, (getChatgptResponse g plugins conv0 fuel k m).conversation
        = conv0 ++ [userMsg m, assistantMsg a]
      ∧ (getChatgptResponse g plugins conv0 fuel k m).result = a
      ∧ countFunctionMessages (getChatgptResponse g plugins conv0 fuel k m).conversation
          = countFunctionMessages conv0 := by
  cases hres : (innerFlow g plugins (conv0 ++ [userMsg m]) fuel k).result with
  | error e =>
    rw [getChatgptResponse_err g plugins conv0 fuel k m e hres] at h
    simp at h
  | ok a =>
    refine ⟨a, ?_, ?_, ?_⟩
    · rw [getChatgptResponse_ok g plugins conv0 fuel k m a hres]
      simp
    · rw [getChatgptResponse_ok g plugins conv0 fuel k m a hres]
    · rw [getChatgptResponse_ok g plugins conv0 fuel k m a hres]
      simp [countFunctionMessages, List.countP_append, List.countP_cons,
        userMsg, assistantMsg]

/- C7: durable log growth across submissions. -/

theorem submit_growth (g : Gateway) (plugins : Registry) (conv0 : List Message)
    (fuel k : Nat) (m : String) :
    ∃ l, (getChatgptResponse g plugins conv0 fuel k m).conversation = conv0 ++ l
      ∧ l.length
          = (if (getChatgptResponse g plugins conv0 fuel k m).succeeded
             then 2 else 1) := by
  cases h : (innerFlow g plugins (conv0 ++ [userMsg m]) fuel k).result with
  | ok a =>
    refine ⟨[userMsg m, assistantMsg a], ?_, ?_⟩
    · rw [getChatgptResponse_ok g plugins conv0 fuel k m a h]
      simp
    · rw [getChatgptResponse_ok g plugins conv0 fuel k m a h]
      rfl
  | error e =>
    refine ⟨[userMsg m], ?_, ?_⟩
    · rw [getChatgptResponse_err g plugins conv0 fuel k m e h]
    · rw [getChatgptResponse_err g plugins conv0 fuel k m e h]
      rfl

theorem submitAll_stats (g : Gateway) (fuel : Nat) (inputs : List String) :
    ∀ (sess : ChatSession) (k : Nat),
      ∃ l, (submitAll g fuel sess k inputs).sess.conversation
          = sess.conversation ++ l
        ∧ l.length = 2 * (submitAll g fuel sess k inputs).okCount
            + (submitAll g fuel sess k inputs).errCount := by
  induction inputs with
  | nil =>
    intro sess k
    exact ⟨[], by simp [submitAll], by simp [submitAll]⟩
  | cons m rest ih =>
    intro sess k
    obtain ⟨l0, hl0, hlen0⟩ :=
      submit_growth g sess.plugins sess.conversation fuel k m
    obtain ⟨l1, hl1, hlen1⟩ := ih
      ⟨(getChatgptResponse g sess.plugins sess.conversation fuel k m).conversation,
        sess.plugins⟩
      (getChatgptResponse g sess.plugins sess.conversation fuel k m).nextIdx
    refine ⟨l0 ++ l1, ?_, ?_⟩
    · simp only [submitAll]
      rw [hl1]
      show (getChatgptResponse g sess.plugins sess.conversation fuel k m).conversation
          ++ l1 = sess.conversation ++ (l0 ++ l1)
      rw [hl0, List.append_assoc]
    · simp only [submitAll]
      cases hsucc : (getChatgptResponse g sess.plugins sess.conversation fuel k m).succeeded with
      | false =>
        simp [hsucc, List.length_append] at hlen0 ⊢
        omega
      | true =>
        simp [hsucc, List.length_append] at hlen0 ⊢
        omega

/-- C7 amended: over any sequence of submissions against a fresh session,
the visible history is the durable log minus the four seed messages, and its
length is 2 x (submissions whose flow succeeded) + 1 x (submissions caught
by the top-level handler): a successful submit persists a user and an
assistant message, a failed one only the user message. -/
theorem c7_history_length (g : Gateway) (fuel : Nat) (http : Http)
    (inputs : List String) :
    (getMessages (submitAll g fuel (ChatSession.init http) 0 inputs).sess.conversation).length
        = 2 * (submitAll g fuel (ChatSession.init http) 0 inputs).okCount
          + (submitAll g fuel (ChatSession.init http) 0 inputs).errCount
    ∧ (submitAll g fuel (ChatSession.init http) 0 inputs).sess.conversation.take 4
        = seedMessages
    ∧ getMessages (submitAll g fuel (ChatSession.init http) 0 inputs).sess.conversation
        = (submitAll g fuel (ChatSession.init http) 0 inputs).sess.conversation.drop 4 := by
  obtain ⟨l, hl, hlen⟩ := submitAll_stats g fuel inputs (ChatSession.init http) 0
  have hconv : (ChatSession.init http).conversation = seedMessages := rfl
  rw [hconv] at hl
  have hseed : seedMessages.length = 4 := rfl
  have hdrop : (seedMessages ++ l).drop 4 = l := by
    have h := List.drop_left seedMessages l
    rwa [hseed] at h
  have htake : (seedMessages ++ l).take 4 = seedMessages := by
    have h := List.take_left seedMessages l
    rwa [hseed] at h
  have hlength : (submitAll g fuel (ChatSession.init http) 0 inputs).sess.conversation.length
      = 4 + l.length := by
    rw [hl]
    simp [List.length_append, hseed]
  have hgm : getMessages (submitAll g fuel (ChatSession.init http) 0 inputs).sess.conversation
      = (submitAll g fuel (ChatSession.init http) 0 inputs).sess.conversation.drop 4 := by
    unfold getMessages
    rw [if_neg (by rw [hlength]; omega)]
  refine ⟨?_, ?_, hgm⟩
  · rw [hgm, hl, hdrop]
    exact hlen
  · rw [hl]
    exact htake

/-- C7 counterexample: one submission against a failing gateway produces no
final content reply, yet the visible history has length 1 (the dangling user
message), not 2 x 0 as claimed. -/
theorem c7_counterexample :
    (submitAll gRaise 5 (ChatSession.init httpZero) 0 [demoInput]).okCount = 0
    ∧ (getMessages (submitAll gRaise 5 (ChatSession.init httpZero) 0 [demoInput]).sess.conversation).length
        = 1
    ∧ (getMessages (submitAll gRaise 5 (ChatSession.init httpZero) 0 [demoInput]).sess.conversation).length
        ≠ 2 * (submitAll gRaise 5 (ChatSession.init httpZero) 0 [demoInput]).okCount :=
  ⟨rfl, rfl, by decide⟩

/-- C8 witness: the concrete two-tool chain persists exactly the user and
assistant messages and no function message. -/
theorem c8_witness :
    ∃ a, (getChatgptResponse gChain [] seedMessages 9 0 demoInput).conversation
        = seedMessages ++ [userMsg demoInput, assistantMsg a]
      ∧ (getChatgptResponse gChain [] seedMessages 9 0 demoInput).result = a
      ∧ countFunctionMessages
            (getChatgptResponse gChain [] seedMessages 9 0 demoInput).conversation
          = countFunctionMessages seedMessages :=
  c8_durable_log_frame gChain [] seedMessages 9 0 demoInput rfl

end ChatApp
